import Mathlib

/-!
Verification of the visa appointment bot (part_000 / ok.js / visa-bot.js)
against its specification.

Dates are embedded as integers (millisecond timestamps, as produced by
JavaScript `new Date(...)`; only their total order matters here). Raw
date strings compared with `!==` in the freshness check are embedded as
`String`. Fallible/optional values (`availableDate` may be `null`) are
embedded as `Option`.
-/

namespace Visa

/-- part_000 `isDateInRange` (lines 222-225):
`new Date(dateStr) >= startDate && new Date(dateStr) <= endDate`,
an inclusive comparison at both boundaries. -/
def isDateInRange (d startD endD : Int) : Bool :=
  decide (startD ≤ d) && decide (d ≤ endD)

/-- part_000 `getDelay` (lines 252-258): fixed 100 ms overhead, ideal cycle
`60000 / targetCPM`, result `Math.max(0, Math.floor(idealCycle - overhead))`. -/
def getDelay (targetCPM : ℚ) : ℤ :=
  let overhead : ℚ := 100
  let idealCycle : ℚ := 60000 / targetCPM
  max 0 ⌊idealCycle - overhead⌋

/-- visa-bot.js `getRandomDelay` (lines 101-105): base delay `60000 / targetCPM`,
jitter `baseDelay * 0.3 * (r - 0.5)` for a random `r ∈ [0, 1)`, result
`Math.max(1000, Math.floor(baseDelay + jitter))`. -/
def getRandomDelay (targetCPM r : ℚ) : ℤ :=
  let baseDelay : ℚ := 60000 / targetCPM
  let jitter : ℚ := baseDelay * (3 / 10) * (r - 1 / 2)
  max 1000 ⌊baseDelay + jitter⌋

/-- part_000 `verifyDataFreshness` comparison step (lines 457-490):
`mainDate = availableDate ? availableDate.date : null`,
`verifyDate = capturedVerifyDate ? capturedVerifyDate.date : null`;
returns `false` (stale) when both are set and differ, or when the main
date is absent while the verify date is present; `true` (fresh) otherwise. -/
def compareFreshness (mainDate verifyDate : Option String) : Bool :=
  if mainDate.isSome = true ∧ verifyDate.isSome = true ∧ mainDate ≠ verifyDate then
    false
  else if mainDate = none ∧ verifyDate.isSome = true then
    false
  else
    true

/-- The four ways one `verifyDataFreshness` run can end in part_000:
no verification account configured (lines 344-348); the verification
account's login fails, i.e. the post-submit URL still contains `sign_in`
(lines 422-426); a comparison of the two observed dates is reached
(lines 457-490); or the body throws and the catch handler runs
(lines 492-501). -/
inductive VerifyOutcome
  | noAccount
  | loginFailed
  | compared (mainDate verifyDate : Option String)
  | threw
deriving DecidableEq

/-- part_000 `verifyDataFreshness` as a transition on the verification
timer: given the current time `now` and the stored `lastVerifyTime`,
returns the `fresh` verdict together with the value of `lastVerifyTime`
after the run. The timer is set to `now` at lines 346 (no account),
464 (comparison reached) and 499 (catch), but the early return on a
failed verification-account login (line 425) leaves it unchanged. -/
def verifyDataFreshness (now lastVerifyTime : Nat) : VerifyOutcome → Bool × Nat
  | .noAccount => (true, now)
  | .loginFailed => (true, lastVerifyTime)
  | .compared m v => (compareFreshness m v, now)
  | .threw => (true, now)

/-- part_000 monitoring loop, line 914: booking is entered exactly when the
slot returned by `waitForAvailableSlot` is non-null and `isDateInRange`
accepts its date. -/
def shouldEnterBooking (slot : Option Int) (startD endD : Int) : Bool :=
  match slot with
  | none => false
  | some d => isDateInRange d startD endD

/-- part_000 response listener, lines 283-293: the closest-slot cell is
updated only when `slotDate >= today`, and then only when it is empty or
the new date is strictly earlier than the stored one. -/
def trackClosest (today : Int) (cur : Option Int) (slotDate : Int) : Option Int :=
  if today ≤ slotDate then
    match cur with
    | none => some slotDate
    | some c => if slotDate < c then some slotDate else some c
  else cur

/-- visa-bot.js `runMonitoringLoop`, lines 787-793: the closest-slot cell is
updated whenever it is empty or the new date is strictly earlier than the
stored one — there is no today-or-later guard in this variant. -/
def trackClosestVB (cur : Option Int) (slotDate : Int) : Option Int :=
  match cur with
  | none => some slotDate
  | some c => if slotDate < c then some slotDate else some c

/-- One run of part_000 `performBooking` (lines 622-706), abstracted to what
decides its return value: whether the try-body completed or threw, and
whether `page.$('#appointments_submit')` still finds the submission form
afterwards. -/
inductive AttemptRun
  | completed (formPresent : Bool)
  | threw (formPresent : Bool)
deriving DecidableEq

/-- The `stillOnForm` probe of part_000 `performBooking` (lines 682 and 696):
whether the submission form is still present after the attempt. Both the
normal path and the catch handler consult the same probe. -/
def stillOnForm : AttemptRun → Bool
  | .completed p => p
  | .threw p => p

/-- part_000 `performBooking` result (lines 681-705): the normal path returns
`false` when `stillOnForm` is non-null and `true` otherwise; the catch
handler re-checks the same probe and returns `true` exactly when the form
is gone. -/
def performBooking (r : AttemptRun) : Bool :=
  match r with
  | .completed p => !p
  | .threw p => !p

/-- part_000 session outcomes distinguished by the monitoring loop after a
booking sequence: `process.exit(0)` on success (line 931) versus falling
through to the next loop iteration (line 938 onwards). Matches the spec's
SessionState enumeration restricted to the states reachable here. -/
inductive SessionState
  | Monitoring
  | Booking
  | Terminated
deriving DecidableEq

/-- part_000 booking attempt loop (lines 921-937), the
`for (let attempt = 1; attempt <= 3; attempt++)` unrolled: `result n` is
whether attempt `n` returns `true` from `performBooking`. Returns the
number of attempts performed and whether one succeeded. -/
def bookingAttempts (result : Nat → Bool) : Nat × Bool :=
  if result 1 then (1, true)
  else if result 2 then (2, true)
  else if result 3 then (3, true)
  else (3, false)

/-- part_000 control flow after the attempt loop (lines 925-938): a successful
attempt exits the process with code 0 while `bookingInProgress` is still
set; exhaustion clears `bookingInProgress` and the loop continues
monitoring in the same session. -/
def bookingOutcome (result : Nat → Bool) : SessionState × Bool :=
  if (bookingAttempts result).2 then (SessionState.Terminated, true)
  else (SessionState.Monitoring, false)

/-- Observable events of one monitoring-loop iteration of part_000, each
recorded with the value of `bookingInProgress` at the moment it happens. -/
inductive MEvent
  | verifyRun
  | attempt (n : Nat)
  | exitSuccess
  | flagCleared
deriving DecidableEq

/-- One iteration of the part_000 monitoring loop (lines 807-958) restricted
to the freshness check and the booking section, threading the
`bookingInProgress` flag: the check at line 858 runs `verifyDataFreshness`
only when `!bookingInProgress` and the timer is due; a qualifying slot
sets the flag (line 918), runs the attempt loop, and either exits the
process on success (line 931) or clears the flag after the loop
(line 938). Returns the event trace and the flag value at iteration end. -/
def monitorIteration (flag0 verifyDue : Bool) (slot : Option Int) (startD endD : Int)
    (result : Nat → Bool) : List (MEvent × Bool) × Bool :=
  let verifyEvents := if !flag0 && verifyDue then [(MEvent.verifyRun, flag0)] else []
  if shouldEnterBooking slot startD endD then
    let n := (bookingAttempts result).1
    let attemptEvents := (List.range n).map fun i => (MEvent.attempt (i + 1), true)
    if (bookingAttempts result).2 then
      (verifyEvents ++ attemptEvents ++ [(MEvent.exitSuccess, true)], true)
    else
      (verifyEvents ++ attemptEvents ++ [(MEvent.flagCleared, false)], false)
  else
    (verifyEvents, flag0)

/-- Modelled from the spec: `banAccount` comes from ok.js's `./ban_tracker`
module, which is not under src/. Per the spec's CredentialBanRecord and
ban-store interface (`ban(id, reason)`), the ban list is a process-wide,
append-only collection of credential identifiers persisted across
restarts; the reason string does not affect control flow and is omitted. -/
def banAccount (store : List String) (email : String) : List String :=
  email :: store

/-- Modelled from the spec: `isAccountBanned` comes from ok.js's
`./ban_tracker` module, which is not under src/. Per the spec's ban-store
interface (`isBanned(id)`), it is membership of the credential in the
persisted ban list. -/
def isAccountBanned (store : List String) (email : String) : Bool :=
  store.contains email

/-- ok.js `runBot` login/ban control flow (lines 42-55 and 204-239):
consult the ban list on entry and exit without logging in if banned
(lines 44-48); ban and exit if three consecutive failures have already
accrued (lines 50-55); otherwise attempt a login — on failure increment
`consecutiveLoginFailures` and either retry via a recursive `runBot()`
call (below 3) or ban the account and exit (at 3). `outcomes` is the
sequence of login results the environment would produce. Returns the
number of login attempts actually performed and the final ban list. -/
def okRunBot (email : String) : List Bool → List String → Nat → Nat × List String
  | outcomes, banned, failures =>
    if isAccountBanned banned email then (0, banned)
    else if 3 ≤ failures then (0, banAccount banned email)
    else
      match outcomes with
      | [] => (0, banned)
      | ok :: rest =>
        if ok then (1, banned)
        else if failures + 1 < 3 then
          let p := okRunBot email rest banned (failures + 1)
          (p.1 + 1, p.2)
        else (1, banAccount banned email)

/-- part_000 `runBot` failure handling (lines 976-987): any error thrown out
of the session — including a `LOGIN_FAILED` — reaches the outer catch,
which unconditionally restarts `runBot` after a delay. This variant keeps
no failure counter and consults no ban list, so every failed login is
followed by another attempt. Returns the number of login attempts
performed for a given sequence of login results. -/
def part000LoginAttempts : List Bool → Nat
  | [] => 0
  | ok :: rest => if ok then 1 else 1 + part000LoginAttempts rest

/-! ## Helper lemmas -/

lemma trackClosest_some_le (today c d : Int) :
    ∃ r, trackClosest today (some c) d = some r ∧ r ≤ c := by
  unfold trackClosest
  by_cases h : today ≤ d
  · by_cases h2 : d < c
    · exact ⟨d, by simp [h, h2], le_of_lt h2⟩
    · exact ⟨c, by simp [h, h2], le_refl c⟩
  · exact ⟨c, by simp [h], le_refl c⟩

lemma trackClosest_obs_le (today : Int) (cur : Option Int) (d : Int) (h : today ≤ d) :
    ∃ r, trackClosest today cur d = some r ∧ r ≤ d := by
  unfold trackClosest
  cases cur with
  | none => exact ⟨d, by simp [h], le_refl d⟩
  | some c =>
    by_cases h2 : d < c
    · exact ⟨d, by simp [h, h2], le_refl d⟩
    · exact ⟨c, by simp [h, h2], le_of_not_lt h2⟩

lemma foldl_trackClosest_le (today : Int) (l : List Int) (c : Int) :
    ∃ r, l.foldl (trackClosest today) (some c) = some r ∧ r ≤ c := by
  induction l generalizing c with
  | nil => exact ⟨c, rfl, le_refl c⟩
  | cons d rest ih =>
    obtain ⟨r0, h0, hr0⟩ := trackClosest_some_le today c d
    obtain ⟨r, hr, hrle⟩ := ih r0
    exact ⟨r, by simp only [List.foldl_cons, h0, hr], le_trans hrle hr0⟩

lemma trackClosestVB_some_le (c d : Int) :
    ∃ r, trackClosestVB (some c) d = some r ∧ r ≤ c := by
  unfold trackClosestVB
  by_cases h2 : d < c
  · exact ⟨d, by simp [h2], le_of_lt h2⟩
  · exact ⟨c, by simp [h2], le_refl c⟩

lemma trackClosestVB_obs_le (cur : Option Int) (d : Int) :
    ∃ r, trackClosestVB cur d = some r ∧ r ≤ d := by
  unfold trackClosestVB
  cases cur with
  | none => exact ⟨d, rfl, le_refl d⟩
  | some c =>
    by_cases h2 : d < c
    · exact ⟨d, by simp [h2], le_refl d⟩
    · exact ⟨c, by simp [h2], le_of_not_lt h2⟩

lemma foldl_trackClosestVB_le (l : List Int) (c : Int) :
    ∃ r, l.foldl trackClosestVB (some c) = some r ∧ r ≤ c := by
  induction l generalizing c with
  | nil => exact ⟨c, rfl, le_refl c⟩
  | cons d rest ih =>
    obtain ⟨r0, h0, hr0⟩ := trackClosestVB_some_le c d
    obtain ⟨r, hr, hrle⟩ := ih r0
    exact ⟨r, by simp only [List.foldl_cons, h0, hr], le_trans hrle hr0⟩

lemma okRunBot_attempts_bound (email : String) (outcomes : List Bool) :
    ∀ (banned : List String) (failures : Nat), (∀ b ∈ outcomes, b = false) →
      (okRunBot email outcomes banned failures).1 ≤ 3 - failures := by
  induction outcomes with
  | nil =>
    intro banned failures _
    simp only [okRunBot]
    split
    · simp
    · split <;> simp
  | cons b rest ih =>
    intro banned failures hall
    have hb : b = false := hall b (by simp)
    subst hb
    have hrest : ∀ x ∈ rest, x = false := fun x hx => hall x (by simp [hx])
    simp only [okRunBot]
    split
    · simp
    · split
      · simp
      · rename_i hban hf
        simp only [if_false, Bool.false_eq_true]
        by_cases hlt : failures + 1 < 3
        · have := ih banned (failures + 1) hrest
          simp only [hlt, if_true]
          omega
        · simp only [hlt, if_false]
          omega

/-! ## Claim theorems -/

/-- C1: `verifyDataFreshness` declares the data stale (`fresh = false`)
iff both dates are defined and unequal, or the primary date is undefined
while the secondary date is defined; every other combination is fresh. -/
theorem freshness_verdict_iff (m v : Option String) :
    compareFreshness m v = false ↔
      ((m.isSome = true ∧ v.isSome = true ∧ m ≠ v) ∨ (m = none ∧ v.isSome = true)) := by
  cases m with
  | none =>
    cases v with
    | none => simp [compareFreshness]
    | some b => simp [compareFreshness]
  | some a =>
    cases v with
    | none => simp [compareFreshness]
    | some b => by_cases hab : a = b <;> simp [compareFreshness, hab]

/-- C2: evaluating the code at the failing input. A `verifyDataFreshness`
run that ends in a verification-account login failure, at a moment when
the 5-minute (300000 ms) interval has already elapsed since
`lastVerifyTime = 0`, returns `fresh = true` but leaves the timer at 0,
so the interval check still fires on the very next loop iteration —
contradicting the claim that the timer is reset after every run. -/
theorem verify_login_failure_timer_not_reset :
    verifyDataFreshness 300001 0 VerifyOutcome.loginFailed = (true, 0) ∧
      300001 - 0 > 300000 := ⟨rfl, by norm_num⟩

/-- C3: the monitoring loop enters booking iff the observed slot is present
and its date lies inside the window, inclusively at both boundaries. -/
theorem booking_entered_iff_in_window (slot : Option Int) (startD endD : Int) :
    shouldEnterBooking slot startD endD = true ↔
      ∃ d, slot = some d ∧ startD ≤ d ∧ d ≤ endD := by
  cases slot with
  | none => simp [shouldEnterBooking]
  | some d => simp [shouldEnterBooking, isDateInRange]

/-- C4: the booking sequence makes at most 3 attempts, and when all three
fail it performs exactly 3 attempts, clears the booking-in-progress flag
and leaves the session in the Monitoring state. -/
theorem booking_attempts_bounded_and_resume (result : Nat → Bool) :
    (bookingAttempts result).1 ≤ 3 ∧
      ((result 1 = false ∧ result 2 = false ∧ result 3 = false) →
        bookingAttempts result = (3, false) ∧
          bookingOutcome result = (SessionState.Monitoring, false)) := by
  constructor
  · unfold bookingAttempts
    split_ifs <;> simp
  · rintro ⟨h1, h2, h3⟩
    have hb : bookingAttempts result = (3, false) := by
      simp [bookingAttempts, h1, h2, h3]
    exact ⟨hb, by simp [bookingOutcome, hb]⟩

theorem booking_attempts_bounded_and_resume_witness :
    (bookingAttempts (fun _ => false)).1 ≤ 3 ∧
      (bookingAttempts (fun _ => false) = (3, false) ∧
        bookingOutcome (fun _ => false) = (SessionState.Monitoring, false)) := by
  have h := booking_attempts_bounded_and_resume (fun _ => false)
  exact ⟨h.1, h.2 ⟨rfl, rfl, rfl⟩⟩

/-- C5 counterexample: the visa-bot.js tracker update accepts a slot dated
before today. With today = 10 and a tracked date of 20, observing the
past date 5 replaces the tracker in the visa-bot.js variant, while the
part_000 variant (which has the today-or-later guard the claim states)
leaves it unchanged. -/
theorem tracker_past_date_counterexample :
    trackClosestVB (some 20) 5 = some 5 ∧ trackClosest 10 (some 20) 5 = some 20 ∧
      ¬ ((10 : Int) ≤ 5) := by decide

/-- C5 amended: in part_000 the tracker is replaced only by a strictly
earlier date that is today-or-later; in visa-bot.js the today-or-later
guard is absent; in both variants the tracker never regresses to a later
date, and after any sequence of observations it holds a date no later
than any observed date ≥ today (in part_000, conditional on that date
being ≥ today; in visa-bot.js, than any observed date at all). -/
theorem tracker_monotone_amended :
    (∀ (today : Int) (cur : Option Int) (d : Int), trackClosest today cur d ≠ cur →
        today ≤ d ∧ ∀ c, cur = some c → d < c) ∧
    (∀ (today c d r : Int), trackClosest today (some c) d = some r → r ≤ c) ∧
    (∀ (c d r : Int), trackClosestVB (some c) d = some r → r ≤ c) ∧
    (∀ (today : Int) (pre post : List Int) (d : Int), today ≤ d →
        ∃ r, (pre ++ d :: post).foldl (trackClosest today) none = some r ∧ r ≤ d) ∧
    (∀ (pre post : List Int) (d : Int),
        ∃ r, (pre ++ d :: post).foldl trackClosestVB none = some r ∧ r ≤ d) := by
  refine ⟨?_, ?_, ?_, ?_, ?_⟩
  · intro today cur d hne
    unfold trackClosest at hne
    by_cases ht : today ≤ d
    · refine ⟨ht, ?_⟩
      intro c hc
      subst hc
      by_cases h2 : d < c
      · exact h2
      · exact absurd (by simp [ht, h2]) hne
    · exact absurd (by simp [ht]) hne
  · intro today c d r hr
    obtain ⟨r0, h0, hle⟩ := trackClosest_some_le today c d
    rw [hr] at h0
    cases h0
    exact hle
  · intro c d r hr
    obtain ⟨r0, h0, hle⟩ := trackClosestVB_some_le c d
    rw [hr] at h0
    cases h0
    exact hle
  · intro today pre post d hd
    rw [List.foldl_append, List.foldl_cons]
    obtain ⟨r0, h0, hr0⟩ :=
      trackClosest_obs_le today (pre.foldl (trackClosest today) none) d hd
    rw [h0]
    obtain ⟨r, hr, hrle⟩ := foldl_trackClosest_le today post r0
    exact ⟨r, hr, le_trans hrle hr0⟩
  · intro pre post d
    rw [List.foldl_append, List.foldl_cons]
    obtain ⟨r0, h0, hr0⟩ := trackClosestVB_obs_le (pre.foldl trackClosestVB none) d
    rw [h0]
    obtain ⟨r, hr, hrle⟩ := foldl_trackClosestVB_le post r0
    exact ⟨r, hr, le_trans hrle hr0⟩

theorem tracker_monotone_amended_witness :
    ∃ r, ([(5 : Int), 20] ++ 12 :: [15]).foldl (trackClosest 10) none = some r ∧ r ≤ 12 :=
  tracker_monotone_amended.2.2.2.1 10 [5, 20] [15] 12 (by decide)

/-- C6 counterexample: the part_000 variant keeps no failure counter and
consults no ban list; with four consecutive failed logins it performs
four login attempts, so a credential that accrued 3 consecutive failures
is attempted again in the same run. -/
theorem credential_ban_counterexample :
    part000LoginAttempts [false, false, false, false] = 4 ∧ 3 < 4 := by decide

/-- C6 amended: in the ok.js variant, three consecutive failed logins put
the credential in the ban list after exactly 3 attempts; a banned
credential is never attempted again (a bot start consulting the ban list
exits without logging in); and no all-failing outcome sequence ever
produces more than 3 login attempts. The part_000 variant has no ban
mechanism and restarts unconditionally on login failure. -/
theorem credential_ban_amended :
    (∀ (email : String) (rest : List Bool),
        okRunBot email (false :: false :: false :: rest) [] 0 = (3, [email])) ∧
    (∀ (email : String) (outcomes : List Bool) (banned : List String) (failures : Nat),
        isAccountBanned banned email = true →
          okRunBot email outcomes banned failures = (0, banned)) ∧
    (∀ (email : String) (outcomes : List Bool),
        (∀ b ∈ outcomes, b = false) → (okRunBot email outcomes [] 0).1 ≤ 3) := by
  refine ⟨?_, ?_, ?_⟩
  · intro email rest
    simp [okRunBot, isAccountBanned, banAccount]
  · intro email outcomes banned failures hban
    cases outcomes <;> simp [okRunBot, hban]
  · intro email outcomes hall
    have h := okRunBot_attempts_bound email outcomes [] 0 hall
    omega

theorem credential_ban_amended_witness :
    okRunBot "a" [true] ["a"] 0 = (0, ["a"]) :=
  credential_ban_amended.2.1 "a" [true] ["a"] 0 (by decide)

/-- C7: in every monitoring-loop iteration, `verifyDataFreshness` runs only
while the booking-in-progress flag is false (and never at all when the
iteration starts with the flag set), and every booking attempt happens
while the flag is true, with the flag-clear event coming only after the
attempt sequence. -/
theorem verify_suppressed_during_booking (flag0 verifyDue : Bool) (slot : Option Int)
    (startD endD : Int) (result : Nat → Bool) :
    (∀ f, (MEvent.verifyRun, f) ∈ (monitorIteration flag0 verifyDue slot startD endD result).1 →
        f = false) ∧
    (∀ n f, (MEvent.attempt n, f) ∈ (monitorIteration flag0 verifyDue slot startD endD result).1 →
        f = true) ∧
    (flag0 = true →
      ∀ f, (MEvent.verifyRun, f) ∉ (monitorIteration flag0 verifyDue slot startD endD result).1) := by
  unfold monitorIteration
  cases flag0 <;> cases verifyDue <;>
    split_ifs <;>
      simp_all [List.mem_append, List.mem_map]

theorem verify_suppressed_during_booking_witness :
    (false : Bool) = false :=
  (verify_suppressed_during_booking false true none 0 0 (fun _ => true)).1 false (by decide)

/-- C8: a booking attempt reports success exactly when the submission form
is absent from the page afterwards, on both the normal path and the
thrown-error path (which re-checks the same probe). -/
theorem booking_success_iff_form_absent (r : AttemptRun) :
    performBooking r = true ↔ stillOnForm r = false := by
  cases r <;> simp [performBooking, stillOnForm]

/-- C9: the inter-tick delay is `max(0, floor(60000 / targetCPM - 100))`
milliseconds, and at a target of 240 checks per minute it is 150 ms. -/
theorem delay_formula (t : ℚ) (h : 0 < t) :
    getDelay t = max 0 ⌊(60000 : ℚ) / t - 100⌋ ∧ getDelay 240 = 150 := by
  refine ⟨rfl, ?_⟩
  norm_num [getDelay]

theorem delay_formula_witness :
    getDelay 240 = max 0 ⌊(60000 : ℚ) / 240 - 100⌋ ∧ getDelay 240 = 150 :=
  delay_formula 240 (by norm_num)

/-- C10: the visa-bot.js delay is at least 1000 ms for every positive target
rate and every jitter outcome in `[0, 1)`, so the implied check rate
`60000 / delay` never exceeds 60 checks per minute. -/
theorem random_delay_min (t r : ℚ) (ht : 0 < t) (hr0 : 0 ≤ r) (hr1 : r < 1) :
    1000 ≤ getRandomDelay t r ∧
      (60000 : ℚ) / ((getRandomDelay t r : ℤ) : ℚ) ≤ 60 := by
  have h1 : (1000 : ℤ) ≤ getRandomDelay t r := by
    unfold getRandomDelay
    exact le_max_left _ _
  refine ⟨h1, ?_⟩
  have h2 : (1000 : ℚ) ≤ ((getRandomDelay t r : ℤ) : ℚ) := by exact_mod_cast h1
  have hpos : (0 : ℚ) < ((getRandomDelay t r : ℤ) : ℚ) := lt_of_lt_of_le (by norm_num) h2
  rw [div_le_iff₀ hpos]
  linarith

theorem random_delay_min_witness :
    1000 ≤ getRandomDelay 240 0 ∧
      (60000 : ℚ) / ((getRandomDelay 240 0 : ℤ) : ℚ) ≤ 60 :=
  random_delay_min 240 0 (by norm_num) (by norm_num) (by norm_num)

end Visa
